import Mathlib

/-!
Verification development for the ALIAS token server
(`src/server/token_server.py`): a shallow embedding of the FastAPI
handlers `get_token` (POST /token) and `create_room` (POST /rooms),
the helpers `_require_config` and `_ensure_room`, and the pieces of the
request/response data model the handlers use, together with theorems
settling the specification's claims about them.

Modelling conventions:
* Python exceptions raised by a handler (`HTTPException`) become the
  `Except` error channel.
* The remote LiveKit create-room call is an oracle: `Option String`,
  `none` meaning the call succeeded and `some msg` meaning it raised an
  exception whose `str(exc)` rendering is `msg`.
* Each handler also returns the list of observable events it performed
  (remote create-room calls, credential signings), so that "no network
  call is made" and "aborts before signing" are statable.
* Configuration is the triple of module-level values loaded at startup;
  Python string falsiness ("unset") is the empty string.
-/

namespace TokenServer

/-- Lowercasing of a string, character by character: the model of
Python's `str.lower()` as used in `_ensure_room` (`str(exc).lower()`). -/
def lowerStr (s : String) : String := String.mk (s.data.map Char.toLower)

/-- Whether the second list starts with the first. -/
def startsWithL : List Char → List Char → Bool
  | [], _ => true
  | _ :: _, [] => false
  | p :: ps, c :: cs => p == c && startsWithL ps cs

/-- Whether `pat` occurs as a contiguous run inside the list. -/
def hasSubL (pat : List Char) : List Char → Bool
  | [] => startsWithL pat []
  | c :: cs => startsWithL pat (c :: cs) || hasSubL pat cs

/-- Substring containment on strings: the model of Python's
`pat in s` test on `str`. -/
def hasSub (pat s : String) : Bool := hasSubL pat.data s.data

/-- The module-level signing configuration, loaded once at startup:
`LIVEKIT_URL`, `LIVEKIT_API_KEY`, `LIVEKIT_API_SECRET`. -/
structure Config where
  LIVEKIT_URL : String
  LIVEKIT_API_KEY : String
  LIVEKIT_API_SECRET : String
deriving DecidableEq, Repr

/-- Python truthiness of a string: non-empty. -/
def truthy (s : String) : Bool := !(s == "")

/-- The error FastAPI turns into an HTTP error response, as raised by
`_require_config` and `_ensure_room`. -/
structure HTTPException where
  status_code : Nat
  detail : String
deriving DecidableEq, Repr

/-- The body of POST /token: pydantic model `TokenRequest` with fields
`room`, `identity`, optional `name`, and `auto_create_room`. -/
structure TokenRequest where
  room : String
  identity : String
  name : Option String
  auto_create_room : Bool
deriving DecidableEq, Repr

/-- Pydantic construction of a `TokenRequest` from a parsed JSON body:
`room` and `identity` are required, `name` is optional with default
`None`, and `auto_create_room` is optional with default `True`
(`Field(True, ...)`). -/
def TokenRequest.ofFields (room identity : String) (name : Option String)
    (auto_create_room : Option Bool) : TokenRequest :=
  { room := room, identity := identity, name := name,
    auto_create_room := auto_create_room.getD true }

/-- The capability grant constructed in `get_token`
(`api.VideoGrants`). -/
structure VideoGrants where
  room_join : Bool
  room : String
  can_publish : Bool
  can_subscribe : Bool
  can_publish_data : Bool
deriving DecidableEq, Repr

/-- The builder object `api.AccessToken(key, secret)` accumulates an
identity, a display name and a grant before being serialized. -/
structure AccessToken where
  api_key : String
  api_secret : String
  identity : String
  name : String
  grants : VideoGrants
deriving DecidableEq, Repr

/-- Construction `api.AccessToken(LIVEKIT_API_KEY, LIVEKIT_API_SECRET)`
with the library's empty/false defaults for the not-yet-set fields. -/
def AccessToken.new (key secret : String) : AccessToken :=
  { api_key := key, api_secret := secret, identity := "", name := "",
    grants := { room_join := false, room := "", can_publish := false,
                can_subscribe := false, can_publish_data := false } }

/-- Builder step `.with_identity(i)`. -/
def AccessToken.with_identity (t : AccessToken) (i : String) : AccessToken :=
  { t with identity := i }

/-- Builder step `.with_name(n)`. -/
def AccessToken.with_name (t : AccessToken) (n : String) : AccessToken :=
  { t with name := n }

/-- Builder step `.with_grants(g)`. -/
def AccessToken.with_grants (t : AccessToken) (g : VideoGrants) : AccessToken :=
  { t with grants := g }

/-- Modelled from the spec: the serializer `AccessToken.to_jwt()` lives
in the third-party LiveKit SDK, not in this repository. The spec
describes the signed credential as "an opaque bearer token encoding
identity, display name, capability grant, and an expiry, signed with a
shared secret", so we model it as a serialization that embeds those
fields behind a fixed header. -/
def AccessToken.to_jwt (t : AccessToken) : String :=
  "jwt." ++ t.identity ++ "." ++ t.name ++ "." ++ t.grants.room ++ ".sig"

/-- Python's `a or b` for `a : Optional[str]`: `b` when `a` is absent or
falsy (the empty string), `a` otherwise — the expression
`body.name or body.identity` in `get_token`. -/
def pyOr (a : Option String) (b : String) : String :=
  match a with
  | none => b
  | some s => if s == "" then b else s

/-- The JSON object returned by a successful POST /token. -/
structure TokenResponse where
  token : String
  url : String
  identity : String
  room : String
deriving DecidableEq, Repr

/-- The JSON object returned by a successful POST /rooms. -/
structure RoomResponse where
  room : String
  created : Bool
deriving DecidableEq, Repr

/-- Observable side effects of a handler call: a remote create-room
network call, or the signing of a credential. -/
inductive Event where
  | createRoomCall (room : String)
  | signToken (identity room : String)
deriving DecidableEq, Repr

/-- The helper `_require_config`: raise HTTP 500 with the fixed message
unless all three configuration values are truthy. -/
def require_config (c : Config) : Except HTTPException Unit :=
  if truthy c.LIVEKIT_URL && truthy c.LIVEKIT_API_KEY && truthy c.LIVEKIT_API_SECRET then
    Except.ok ()
  else
    Except.error
      { status_code := 500,
        detail := "LIVEKIT_URL, LIVEKIT_API_KEY, and LIVEKIT_API_SECRET must be set" }

/-- The helper `_ensure_room`, given the outcome of the remote
create-room call it performs: on an exception, lowercase the message and
return normally when it contains `"already exists"` or `"exists"`,
otherwise raise HTTP 500 embedding the cause. -/
def ensure_room (remote : Option String) : Except HTTPException Unit :=
  match remote with
  | none => Except.ok ()
  | some exc =>
    let msg := lowerStr exc
    if hasSub "already exists" msg || hasSub "exists" msg then
      Except.ok ()
    else
      Except.error { status_code := 500, detail := "Failed to create room: " ++ exc }

/-- The credential built and signed by `get_token`:
`AccessToken(key, secret).with_identity(identity)`
`.with_name(name or identity).with_grants(grants)` where `grants` sets
all four capabilities and the requested room. -/
def issued_token (c : Config) (body : TokenRequest) : AccessToken :=
  let grants : VideoGrants :=
    { room_join := true, room := body.room, can_publish := true,
      can_subscribe := true, can_publish_data := true }
  (((AccessToken.new c.LIVEKIT_API_KEY c.LIVEKIT_API_SECRET).with_identity
      body.identity).with_name (pyOr body.name body.identity)).with_grants grants

/-- The handler for POST /token (`get_token`): require configuration,
optionally ensure the room, then sign and return the credential. The
second component records the observable events in order. -/
def get_token (c : Config) (remote : Option String) (body : TokenRequest) :
    Except HTTPException TokenResponse × List Event :=
  match require_config c with
  | Except.error e => (Except.error e, [])
  | Except.ok _ =>
    if body.auto_create_room then
      match ensure_room remote with
      | Except.error e => (Except.error e, [Event.createRoomCall body.room])
      | Except.ok _ =>
        (Except.ok
          { token := (issued_token c body).to_jwt, url := c.LIVEKIT_URL,
            identity := body.identity, room := body.room },
         [Event.createRoomCall body.room,
          Event.signToken body.identity body.room])
    else
      (Except.ok
        { token := (issued_token c body).to_jwt, url := c.LIVEKIT_URL,
          identity := body.identity, room := body.room },
       [Event.signToken body.identity body.room])

/-- The handler for POST /rooms (`create_room`): require configuration,
ensure the room, and report `{room: name, created: True}`. -/
def create_room (c : Config) (remote : Option String) (name : String) :
    Except HTTPException RoomResponse × List Event :=
  match require_config c with
  | Except.error e => (Except.error e, [])
  | Except.ok _ =>
    match ensure_room remote with
    | Except.error e => (Except.error e, [Event.createRoomCall name])
    | Except.ok _ =>
      (Except.ok { room := name, created := true }, [Event.createRoomCall name])

/-- Modelled from the spec: the remote media platform holds a set of
existing rooms, and "a create call for an existing session fails with a
duplicate (already exists) error"; creating an absent room succeeds and
adds it. The error rendering is the duplicate message the remote
reports. -/
def remote_create (rooms : List String) (name : String) :
    Option String × List String :=
  if rooms.contains name then (some "room already exists", rooms)
  else (none, name :: rooms)

/-- `EnsureSession` run against the spec's remote-platform model:
perform the remote create call from the given room set and classify its
outcome exactly as `_ensure_room` does. -/
def ensure_session (rooms : List String) (name : String) :
    Except HTTPException Unit × List String :=
  let p := remote_create rooms name
  (ensure_room p.1, p.2)

/-- Every serialized credential is a non-empty string: the serialization
starts with a fixed non-empty header. -/
theorem AccessToken.to_jwt_ne_empty (t : AccessToken) : t.to_jwt ≠ "" := by
  intro h
  have hlen := congrArg String.length h
  simp only [AccessToken.to_jwt, String.length_append] at hlen
  have h4 : "jwt.".length = 4 := rfl
  have h0 : "".length = 0 := rfl
  omega

/-- Claim C1: if any of the signing configuration values (media-server
URL, API key, API secret) is unset (empty, i.e. falsy in Python), then
both `get_token` (POST /token) and `create_room` (POST /rooms) fail with
the fixed HTTP 500 missing-configuration error and perform no observable
event at all — in particular no remote network call. -/
theorem missing_config_fails_without_network (c : Config)
    (h : c.LIVEKIT_URL = "" ∨ c.LIVEKIT_API_KEY = "" ∨ c.LIVEKIT_API_SECRET = "") :
    ∀ (remote : Option String) (body : TokenRequest) (name : String),
      get_token c remote body =
        (Except.error { status_code := 500,
                        detail := "LIVEKIT_URL, LIVEKIT_API_KEY, and LIVEKIT_API_SECRET must be set" },
         []) ∧
      create_room c remote name =
        (Except.error { status_code := 500,
                        detail := "LIVEKIT_URL, LIVEKIT_API_KEY, and LIVEKIT_API_SECRET must be set" },
         []) := by
  intro remote body name
  have hrc : require_config c =
      Except.error { status_code := 500,
                     detail := "LIVEKIT_URL, LIVEKIT_API_KEY, and LIVEKIT_API_SECRET must be set" } := by
    rcases h with h | h | h <;> simp [require_config, truthy, h]
  exact ⟨by simp [get_token, hrc], by simp [create_room, hrc]⟩

/-- Claim C1 witness: with an empty API secret, both handlers return the
fixed configuration error and an empty event trace. -/
theorem missing_config_fails_without_network_witness :
    get_token { LIVEKIT_URL := "ws://localhost:7880", LIVEKIT_API_KEY := "devkey",
                LIVEKIT_API_SECRET := "" } none
        { room := "standup", identity := "u1", name := none, auto_create_room := true } =
      (Except.error { status_code := 500,
                      detail := "LIVEKIT_URL, LIVEKIT_API_KEY, and LIVEKIT_API_SECRET must be set" },
       []) ∧
    create_room { LIVEKIT_URL := "ws://localhost:7880", LIVEKIT_API_KEY := "devkey",
                  LIVEKIT_API_SECRET := "" } none "standup" =
      (Except.error { status_code := 500,
                      detail := "LIVEKIT_URL, LIVEKIT_API_KEY, and LIVEKIT_API_SECRET must be set" },
       []) :=
  missing_config_fails_without_network
    { LIVEKIT_URL := "ws://localhost:7880", LIVEKIT_API_KEY := "devkey",
      LIVEKIT_API_SECRET := "" }
    (Or.inr (Or.inr rfl)) none
    { room := "standup", identity := "u1", name := none, auto_create_room := true } "standup"

/-- Claim C2 counterexample: the remote error message "Room EXISTS"
contains neither "already exists" nor "exists" as a substring, so by the
claim the call should fail with a provisioning error; yet `_ensure_room`
treats it as success, because the code lowercases the message before the
substring test. -/
theorem ensure_room_case_sensitivity_counterexample :
    hasSub "already exists" "Room EXISTS" = false ∧
    hasSub "exists" "Room EXISTS" = false ∧
    ensure_room (some "Room EXISTS") = Except.ok () :=
  ⟨by decide, by decide, rfl⟩

/-- Claim C2 (amended): the "already exists"/"exists" substring test is
applied to the lowercased error message. When the lowercased message
contains one of the substrings, `_ensure_room` returns success; for any
other error it raises HTTP 500 with the underlying cause text embedded,
and the enclosing `get_token` call aborts with that same error. -/
theorem ensure_room_classification (msg : String) (c : Config) (body : TokenRequest)
    (hc : require_config c = Except.ok ())
    (hauto : body.auto_create_room = true) :
    ((hasSub "already exists" (lowerStr msg) || hasSub "exists" (lowerStr msg)) = true →
      ensure_room (some msg) = Except.ok ()) ∧
    ((hasSub "already exists" (lowerStr msg) || hasSub "exists" (lowerStr msg)) = false →
      ensure_room (some msg) =
        Except.error { status_code := 500, detail := "Failed to create room: " ++ msg } ∧
      (get_token c (some msg) body).1 =
        Except.error { status_code := 500, detail := "Failed to create room: " ++ msg }) := by
  constructor
  · intro hcond
    simp [ensure_room, hcond]
  · intro hcond
    have herr : ensure_room (some msg) =
        Except.error { status_code := 500, detail := "Failed to create room: " ++ msg } := by
      simp [ensure_room, hcond]
    exact ⟨herr, by simp [get_token, hc, hauto, herr]⟩

/-- Claim C2 witness: a duplicate-style message is accepted, and an
unrelated message makes both `_ensure_room` and the enclosing
`get_token` fail with the cause embedded. -/
theorem ensure_room_classification_witness :
    ensure_room (some "requested room exists") = Except.ok () ∧
    ensure_room (some "boom") =
      Except.error { status_code := 500, detail := "Failed to create room: boom" } ∧
    (get_token { LIVEKIT_URL := "u", LIVEKIT_API_KEY := "k", LIVEKIT_API_SECRET := "s" }
        (some "boom")
        { room := "standup", identity := "u1", name := none, auto_create_room := true }).1 =
      Except.error { status_code := 500, detail := "Failed to create room: boom" } :=
  ⟨(ensure_room_classification "requested room exists"
      { LIVEKIT_URL := "u", LIVEKIT_API_KEY := "k", LIVEKIT_API_SECRET := "s" }
      { room := "standup", identity := "u1", name := none, auto_create_room := true }
      rfl rfl).1 (by decide),
   ((ensure_room_classification "boom"
      { LIVEKIT_URL := "u", LIVEKIT_API_KEY := "k", LIVEKIT_API_SECRET := "s" }
      { room := "standup", identity := "u1", name := none, auto_create_room := true }
      rfl rfl).2 (by decide)).1,
   ((ensure_room_classification "boom"
      { LIVEKIT_URL := "u", LIVEKIT_API_KEY := "k", LIVEKIT_API_SECRET := "s" }
      { room := "standup", identity := "u1", name := none, auto_create_room := true }
      rfl rfl).2 (by decide)).2⟩

/-- Claim C3: `get_token` is atomic with respect to credential issuance.
If the room-provisioning step fails, the call returns exactly that error,
the event trace consists of the remote call only, and in particular no
credential-signing event occurs. -/
theorem get_token_aborts_on_provisioning_failure (c : Config) (remote : Option String)
    (body : TokenRequest) (e : HTTPException)
    (hc : require_config c = Except.ok ())
    (hauto : body.auto_create_room = true)
    (herr : ensure_room remote = Except.error e) :
    (get_token c remote body).1 = Except.error e ∧
    (get_token c remote body).2 = [Event.createRoomCall body.room] ∧
    ∀ i r, Event.signToken i r ∉ (get_token c remote body).2 := by
  refine ⟨by simp [get_token, hc, hauto, herr], by simp [get_token, hc, hauto, herr], ?_⟩
  intro i r
  simp [get_token, hc, hauto, herr]

/-- Claim C3 witness: a failing remote call aborts a concrete
`get_token` call with the embedded cause and without a signing event. -/
theorem get_token_aborts_on_provisioning_failure_witness :
    (get_token { LIVEKIT_URL := "u", LIVEKIT_API_KEY := "k", LIVEKIT_API_SECRET := "s" }
        (some "boom")
        { room := "standup", identity := "u1", name := none, auto_create_room := true }).1 =
      Except.error { status_code := 500, detail := "Failed to create room: boom" } ∧
    (get_token { LIVEKIT_URL := "u", LIVEKIT_API_KEY := "k", LIVEKIT_API_SECRET := "s" }
        (some "boom")
        { room := "standup", identity := "u1", name := none, auto_create_room := true }).2 =
      [Event.createRoomCall "standup"] ∧
    ∀ i r, Event.signToken i r ∉
      (get_token { LIVEKIT_URL := "u", LIVEKIT_API_KEY := "k", LIVEKIT_API_SECRET := "s" }
        (some "boom")
        { room := "standup", identity := "u1", name := none, auto_create_room := true }).2 :=
  get_token_aborts_on_provisioning_failure
    { LIVEKIT_URL := "u", LIVEKIT_API_KEY := "k", LIVEKIT_API_SECRET := "s" }
    (some "boom")
    { room := "standup", identity := "u1", name := none, auto_create_room := true }
    { status_code := 500, detail := "Failed to create room: boom" }
    rfl rfl rfl

/-- Claim C4: every successful `get_token` response echoes the request
identity and room, carries the configured URL, and holds a non-empty
serialized credential whose embedded identity and room match the
request exactly. -/
theorem get_token_success_response_matches_request (c : Config) (remote : Option String)
    (body : TokenRequest)
    (hc : require_config c = Except.ok ())
    (hok : body.auto_create_room = false ∨ ensure_room remote = Except.ok ()) :
    (get_token c remote body).1 =
      Except.ok { token := (issued_token c body).to_jwt, url := c.LIVEKIT_URL,
                  identity := body.identity, room := body.room } ∧
    (issued_token c body).to_jwt ≠ "" ∧
    (issued_token c body).identity = body.identity ∧
    (issued_token c body).grants.room = body.room := by
  refine ⟨?_, AccessToken.to_jwt_ne_empty _, rfl, rfl⟩
  rcases hok with hok | hok
  · simp [get_token, hc, hok]
  · cases hauto : body.auto_create_room <;> simp [get_token, hc, hauto, hok]

/-- Claim C4 witness: the example request from the spec, with the room
already ensured, yields the echoed fields and a non-empty token. -/
theorem get_token_success_response_matches_request_witness :
    (get_token { LIVEKIT_URL := "ws://localhost:7880", LIVEKIT_API_KEY := "devkey",
                 LIVEKIT_API_SECRET := "secret" } none
        { room := "standup", identity := "u1", name := none, auto_create_room := true }).1 =
      Except.ok { token := (issued_token
                    { LIVEKIT_URL := "ws://localhost:7880", LIVEKIT_API_KEY := "devkey",
                      LIVEKIT_API_SECRET := "secret" }
                    { room := "standup", identity := "u1", name := none,
                      auto_create_room := true }).to_jwt,
                  url := "ws://localhost:7880", identity := "u1", room := "standup" } ∧
    (issued_token { LIVEKIT_URL := "ws://localhost:7880", LIVEKIT_API_KEY := "devkey",
                    LIVEKIT_API_SECRET := "secret" }
        { room := "standup", identity := "u1", name := none,
          auto_create_room := true }).to_jwt ≠ "" ∧
    (issued_token { LIVEKIT_URL := "ws://localhost:7880", LIVEKIT_API_KEY := "devkey",
                    LIVEKIT_API_SECRET := "secret" }
        { room := "standup", identity := "u1", name := none,
          auto_create_room := true }).identity = "u1" ∧
    (issued_token { LIVEKIT_URL := "ws://localhost:7880", LIVEKIT_API_KEY := "devkey",
                    LIVEKIT_API_SECRET := "secret" }
        { room := "standup", identity := "u1", name := none,
          auto_create_room := true }).grants.room = "standup" :=
  get_token_success_response_matches_request
    { LIVEKIT_URL := "ws://localhost:7880", LIVEKIT_API_KEY := "devkey",
      LIVEKIT_API_SECRET := "secret" } none
    { room := "standup", identity := "u1", name := none, auto_create_room := true }
    rfl (Or.inr rfl)

/-- Claim C5: for every configuration and request, the capability grant
placed in the signed credential has all four permissions set and targets
exactly the requested room — no partial grant is ever produced. -/
theorem issued_grants_full (c : Config) (body : TokenRequest) :
    (issued_token c body).grants =
      { room_join := true, room := body.room, can_publish := true,
        can_subscribe := true, can_publish_data := true } := rfl

/-- Claim C6 counterexample: a request whose identity and room are both
the empty string is not rejected — `get_token` resolves it into a signed
credential embedding the empty strings. -/
theorem get_token_accepts_empty_identity_and_room :
    (get_token { LIVEKIT_URL := "ws://localhost:7880", LIVEKIT_API_KEY := "devkey",
                 LIVEKIT_API_SECRET := "secret" } none
        { room := "", identity := "", name := none, auto_create_room := false }).1 =
      Except.ok { token := "jwt....sig", url := "ws://localhost:7880",
                  identity := "", room := "" } := rfl

/-- Claim C6 (amended): the pydantic model requires the identity and
room fields to be present but performs no non-emptiness validation:
under a valid configuration, a request with empty identity and room is
resolved into a signed credential embedding the empty strings. -/
theorem get_token_no_nonempty_validation (c : Config) (remote : Option String)
    (nm : Option String)
    (hc : require_config c = Except.ok ()) :
    (get_token c remote
        { room := "", identity := "", name := nm, auto_create_room := false }).1 =
      Except.ok { token := (issued_token c
                    { room := "", identity := "", name := nm,
                      auto_create_room := false }).to_jwt,
                  url := c.LIVEKIT_URL, identity := "", room := "" } := by
  simp [get_token, hc]

/-- Claim C6 (amended) witness: the concrete empty-field request is
accepted under the default development configuration. -/
theorem get_token_no_nonempty_validation_witness :
    (get_token { LIVEKIT_URL := "ws://localhost:7880", LIVEKIT_API_KEY := "devkey",
                 LIVEKIT_API_SECRET := "secret" } none
        { room := "", identity := "", name := none, auto_create_room := false }).1 =
      Except.ok { token := (issued_token
                    { LIVEKIT_URL := "ws://localhost:7880", LIVEKIT_API_KEY := "devkey",
                      LIVEKIT_API_SECRET := "secret" }
                    { room := "", identity := "", name := none,
                      auto_create_room := false }).to_jwt,
                  url := "ws://localhost:7880", identity := "", room := "" } :=
  get_token_no_nonempty_validation
    { LIVEKIT_URL := "ws://localhost:7880", LIVEKIT_API_KEY := "devkey",
      LIVEKIT_API_SECRET := "secret" } none none rfl

/-- Claim C7: when auto-provision is true the remote ensure-room call is
the first event of the trace, so it happens before any signing; when it
is false no ensure-room call occurs at all; and a request body parsed
without the `auto_create_room` field defaults the flag to true. -/
theorem auto_create_room_controls_provisioning (c : Config) (remote : Option String)
    (body : TokenRequest) :
    (body.auto_create_room = true → require_config c = Except.ok () →
      (get_token c remote body).2.head? = some (Event.createRoomCall body.room)) ∧
    (body.auto_create_room = false →
      ∀ r, Event.createRoomCall r ∉ (get_token c remote body).2) ∧
    (∀ (room identity : String) (nm : Option String),
      (TokenRequest.ofFields room identity nm none).auto_create_room = true) := by
  refine ⟨?_, ?_, ?_⟩
  · intro hauto hc
    cases herr : ensure_room remote <;> simp [get_token, hc, hauto, herr]
  · intro hauto r
    cases hc : require_config c <;> simp [get_token, hc, hauto]
  · intro room identity nm
    rfl

/-- Claim C7 witness: with auto-provision on, the trace starts with the
remote call; with it off, no remote call occurs; and the parsed default
is true. -/
theorem auto_create_room_controls_provisioning_witness :
    (get_token { LIVEKIT_URL := "u", LIVEKIT_API_KEY := "k", LIVEKIT_API_SECRET := "s" }
        none
        { room := "standup", identity := "u1", name := none,
          auto_create_room := true }).2.head? = some (Event.createRoomCall "standup") ∧
    (∀ r, Event.createRoomCall r ∉
      (get_token { LIVEKIT_URL := "u", LIVEKIT_API_KEY := "k", LIVEKIT_API_SECRET := "s" }
        none
        { room := "standup", identity := "u1", name := none,
          auto_create_room := false }).2) ∧
    (TokenRequest.ofFields "standup" "u1" none none).auto_create_room = true :=
  ⟨(auto_create_room_controls_provisioning
      { LIVEKIT_URL := "u", LIVEKIT_API_KEY := "k", LIVEKIT_API_SECRET := "s" } none
      { room := "standup", identity := "u1", name := none,
        auto_create_room := true }).1 rfl rfl,
   (auto_create_room_controls_provisioning
      { LIVEKIT_URL := "u", LIVEKIT_API_KEY := "k", LIVEKIT_API_SECRET := "s" } none
      { room := "standup", identity := "u1", name := none,
        auto_create_room := false }).2.1 rfl,
   (auto_create_room_controls_provisioning
      { LIVEKIT_URL := "u", LIVEKIT_API_KEY := "k", LIVEKIT_API_SECRET := "s" } none
      { room := "standup", identity := "u1", name := none,
        auto_create_room := false }).2.2 "standup" "u1" none⟩

/-- Claim C8: `EnsureSession` is idempotent under the spec's
remote-platform model: from any room set, two successive calls with the
same name both succeed — the first creates or tolerates the duplicate,
the second always hits the duplicate case and tolerates it. -/
theorem ensure_session_idempotent (rooms : List String) (name : String) :
    (ensure_session rooms name).1 = Except.ok () ∧
    (ensure_session (ensure_session rooms name).2 name).1 = Except.ok () := by
  have hdup : ensure_room (some "room already exists") = Except.ok () := rfl
  constructor
  · by_cases h : name ∈ rooms
    · simp [ensure_session, remote_create, h, hdup]
    · simp [ensure_session, remote_create, h, ensure_room]
  · by_cases h : name ∈ rooms
    · simp [ensure_session, remote_create, h, hdup]
    · simp [ensure_session, remote_create, h, hdup, List.mem_cons_self]

/-- Claim C9: under a valid configuration, every successful
`create_room` response is exactly the requested name with
`created := true`, and in particular a duplicate remote error (the room
already existed, so nothing was created) still yields
`created := true`. -/
theorem create_room_reports_created_true (c : Config) (name : String)
    (hc : require_config c = Except.ok ()) :
    (∀ (remote : Option String) (r : RoomResponse),
        (create_room c remote name).1 = Except.ok r →
        r = { room := name, created := true }) ∧
    (∀ msg,
        (hasSub "already exists" (lowerStr msg) || hasSub "exists" (lowerStr msg)) = true →
        (create_room c (some msg) name).1 =
          Except.ok { room := name, created := true }) := by
  constructor
  · intro remote r hr
    cases herr : ensure_room remote <;> simp [create_room, hc, herr] at hr
    exact hr.symm
  · intro msg hcond
    have hok : ensure_room (some msg) = Except.ok () := by simp [ensure_room, hcond]
    simp [create_room, hc, hok]

/-- Claim C9 witness: creating a room that already exists remotely still
reports `created := true`. -/
theorem create_room_reports_created_true_witness :
    (create_room { LIVEKIT_URL := "u", LIVEKIT_API_KEY := "k", LIVEKIT_API_SECRET := "s" }
        (some "room already exists") "standup").1 =
      Except.ok { room := "standup", created := true } :=
  (create_room_reports_created_true
    { LIVEKIT_URL := "u", LIVEKIT_API_KEY := "k", LIVEKIT_API_SECRET := "s" }
    "standup" rfl).2 "room already exists" (by decide)

/-- Claim C10: the display-name fallback of the signed credential
triggers on an absent display name and on the empty string alike, and a
non-empty provided display name is used as given. -/
theorem display_name_fallback (c : Config) (identity room : String) (n : String)
    (hn : n ≠ "") :
    (issued_token c { room := room, identity := identity, name := none,
                      auto_create_room := true }).name = identity ∧
    (issued_token c { room := room, identity := identity, name := some "",
                      auto_create_room := true }).name = identity ∧
    (issued_token c { room := room, identity := identity, name := some n,
                      auto_create_room := true }).name = n := by
  have hbeq : (n == "") = false := by simp [hn]
  refine ⟨rfl, rfl, ?_⟩
  simp [issued_token, AccessToken.new, AccessToken.with_identity, AccessToken.with_name,
        AccessToken.with_grants, pyOr, hbeq]

/-- Claim C10 witness: the fallback and the non-empty case at concrete
requests. -/
theorem display_name_fallback_witness :
    (issued_token { LIVEKIT_URL := "u", LIVEKIT_API_KEY := "k", LIVEKIT_API_SECRET := "s" }
        { room := "standup", identity := "u1", name := none,
          auto_create_room := true }).name = "u1" ∧
    (issued_token { LIVEKIT_URL := "u", LIVEKIT_API_KEY := "k", LIVEKIT_API_SECRET := "s" }
        { room := "standup", identity := "u1", name := some "",
          auto_create_room := true }).name = "u1" ∧
    (issued_token { LIVEKIT_URL := "u", LIVEKIT_API_KEY := "k", LIVEKIT_API_SECRET := "s" }
        { room := "standup", identity := "u1", name := some "Uma",
          auto_create_room := true }).name = "Uma" :=
  display_name_fallback
    { LIVEKIT_URL := "u", LIVEKIT_API_KEY := "k", LIVEKIT_API_SECRET := "s" }
    "u1" "standup" "Uma" (by decide)

end TokenServer
